import Mathlib

set_option maxHeartbeats 2000000
set_option maxRecDepth 200000

namespace GeminiWeb

/-- JavaScript runtime values as used by the gemini-web-api client:
`undefined`, `null`, booleans, numbers, strings and arrays.
The backend protocol payloads decoded by `GeminiClient.parseResponse` are JSON
arrays built from nulls, integers, strings and nested arrays; JSON objects and
fractional numbers never occur in this positional protocol and are outside the
model (the JSON reader rejects them explicitly rather than silently). -/
inductive JVal where
  | undefined : JVal
  | jnull : JVal
  | jbool : Bool → JVal
  | jnum : Int → JVal
  | jstr : String → JVal
  | jarr : List JVal → JVal

/-- JavaScript truthiness: `undefined`, `null`, `false`, `0` and `""` are
falsy; every array (including `[]`) is truthy. -/
def truthy : JVal → Bool
  | .undefined => false
  | .jnull => false
  | .jbool b => b
  | .jnum n => n != 0
  | .jstr s => s != ""
  | .jarr _ => true

/-- JavaScript `a || b`: value of `a` when truthy, else value of `b`. -/
def jsOr (a b : JVal) : JVal := if truthy a then a else b

/-- JavaScript property read `v[i]` for a non-negative integer index.
Reading a property of `undefined` or `null` throws a TypeError; array reads
out of range give `undefined`; string reads give the single character;
other primitives have no numeric properties. -/
def jsIdxE : JVal → Nat → Except String JVal
  | .undefined, _ => .error "Cannot read properties of undefined"
  | .jnull, _ => .error "Cannot read properties of null"
  | .jarr l, i => .ok (l.getD i .undefined)
  | .jstr s, i =>
    .ok (match (s.toList.drop i) with
         | c :: _ => .jstr (String.singleton c)
         | [] => .undefined)
  | _, _ => .ok .undefined

/-- Total variant of `jsIdxE`, used only where the base value is already known
to be non-nullish (guarded by a truthiness test in the source), where it
coincides with `jsIdxE`. -/
def idx0 (v : JVal) (i : Nat) : JVal :=
  match jsIdxE v i with
  | .ok r => r
  | .error _ => .undefined

/-- JavaScript `v.length`: throws on `undefined`/`null`; array and string
lengths are numbers; other primitives yield `undefined`. -/
def jsLenE : JVal → Except String JVal
  | .undefined => .error "Cannot read properties of undefined"
  | .jnull => .error "Cannot read properties of null"
  | .jarr l => .ok (.jnum l.length)
  | .jstr s => .ok (.jnum s.toList.length)
  | _ => .ok .undefined

/-- JavaScript `v > k` for the result of a `.length` read: only a numeric
length compares greater; `undefined > k` is false. -/
def jsGtInt (v : JVal) (k : Int) : Bool :=
  match v with
  | .jnum n => n > k
  | _ => false

/-- Iteration bound of `for (let i = 0; i < v.length; i++)`: a numeric length
bounds the loop, a non-numeric (`undefined`) length means zero iterations. -/
def jsLoopBound (v : JVal) : Nat :=
  match v with
  | .jnum n => n.toNat
  | _ => 0

/-- Elements visited by an index loop `v[0] … v[len-1]`: array elements, or
single-character strings for a string, nothing for other primitives. -/
def jsElems : JVal → List JVal
  | .jarr l => l
  | .jstr s => s.toList.map (fun c => .jstr (String.singleton c))
  | _ => []

/-- JavaScript `for (x of v)`: arrays and strings are iterable, every other
value of this model throws a TypeError. -/
def jsForOf : JVal → Except String (List JVal)
  | .jarr l => .ok l
  | .jstr s => .ok (s.toList.map (fun c => .jstr (String.singleton c)))
  | _ => .error "is not iterable"

/-- JavaScript property write `v[i] = x` (strict mode, as in an ES module):
arrays are updated in place, extending with `undefined` holes when the index
is past the end; writes to nullish or primitive bases throw. -/
def jsSetIdxE : JVal → Nat → JVal → Except String JVal
  | .jarr l, i, x =>
    .ok (.jarr (if i < l.length then l.set i x
                else l ++ List.replicate (i - l.length) JVal.undefined ++ [x]))
  | .undefined, _, _ => .error "Cannot set properties of undefined"
  | .jnull, _, _ => .error "Cannot set properties of null"
  | _, _, _ => .error "Cannot create property on primitive"

/-- Whether a value is a JS array (`Array.isArray`). -/
def isJsArr : JVal → Bool
  | .jarr _ => true
  | _ => false

/-- Length of an array value, 0 otherwise. -/
def jarrLen : JVal → Nat
  | .jarr l => l.length
  | _ => 0

/-- Characters treated as whitespace by `String.prototype.trim` (the ASCII
fragment, which covers this protocol's strings). -/
def isJsWsChar (c : Char) : Bool :=
  c = ' ' || c = '\t' || c = '\n' || c = '\r' || c = '\x0b' || c = '\x0c'

/-- JavaScript `s.trim()` on the ASCII whitespace fragment. -/
def jsTrim (s : String) : String :=
  String.mk (((s.toList.dropWhile isJsWsChar).reverse.dropWhile isJsWsChar).reverse)

/-- Split a character list at every occurrence of the separator, keeping empty
segments — the semantics of JavaScript `String.prototype.split` with a
single-character separator. -/
def splitCharAux (sep : Char) : List Char → List (List Char)
  | [] => [[]]
  | x :: xs =>
    match splitCharAux sep xs with
    | [] => [[]]
    | h :: t => if x = sep then [] :: h :: t else (x :: h) :: t

/-- JavaScript `s.split(sep)` for a one-character separator. -/
def jsSplit (sep : Char) (s : String) : List String :=
  (splitCharAux sep s.toList).map String.mk

mutual
/-- JavaScript `ToString` coercion as applied by template literals and by the
string coercion inside `RegExp.prototype.exec`/`JSON.parse` arguments. -/
def jsToStr : JVal → String
  | .undefined => "undefined"
  | .jnull => "null"
  | .jbool b => if b then "true" else "false"
  | .jnum n => toString n
  | .jstr s => s
  | .jarr l => jsToStrList l

/-- Array-to-string join with `","`; `null` and `undefined` elements print
as the empty string, as in JavaScript `Array.prototype.toString`. -/
def jsToStrList : List JVal → String
  | [] => ""
  | [v] =>
    (match v with
     | .undefined => ""
     | .jnull => ""
     | w => jsToStr w)
  | v :: w :: r =>
    (match v with
     | .undefined => ""
     | .jnull => ""
     | u => jsToStr u) ++ "," ++ jsToStrList (w :: r)
end

/-- Does `pre` occur at the head of `l`? -/
def startsList : List Char → List Char → Bool
  | [], _ => true
  | _ :: _, [] => false
  | p :: ps, c :: cs => p = c && startsList ps cs

/-! ### JSON reading (`JSON.parse`)

A recursive-descent reader for the JSON fragment this protocol uses:
`null`, `true`, `false`, integer numbers, strings (with the standard
escapes) and arrays.  Fuel-indexed to make totality evident; the entry
point supplies enough fuel for any input. -/

/-- JSON whitespace. -/
def isJsonWs (c : Char) : Bool :=
  c = ' ' || c = '\t' || c = '\n' || c = '\r'

/-- Drop leading JSON whitespace. -/
def skipWs : List Char → List Char
  | [] => []
  | c :: cs => if isJsonWs c then skipWs cs else c :: cs

/-- Value of a hexadecimal digit (code points 48-57, 97-102, 65-70). -/
def hexVal (c : Char) : Option Nat :=
  let n := c.toNat
  if 48 ≤ n && n ≤ 57 then some (n - 48)
  else if 97 ≤ n && n ≤ 102 then some (n - 87)
  else if 65 ≤ n && n ≤ 70 then some (n - 55)
  else none

/-- Single-character JSON string escapes. -/
def escMap (c : Char) : Option Char :=
  if c = '"' then some '"'
  else if c = '\\' then some '\\'
  else if c = '/' then some '/'
  else if c = 'n' then some '\n'
  else if c = 't' then some '\t'
  else if c = 'r' then some '\r'
  else if c = 'b' then some '\x08'
  else if c = 'f' then some '\x0c'
  else none

/-- Read the body of a JSON string after the opening quote; returns the
decoded characters and the input after the closing quote. -/
def parseStringBody : Nat → List Char → Except String (List Char × List Char)
  | 0, _ => .error "JSON reader out of fuel"
  | _ + 1, [] => .error "Unterminated string in JSON"
  | f + 1, c :: cs =>
    if c = '"' then .ok ([], cs)
    else if c = '\\' then
      match cs with
      | [] => .error "Bad escape in JSON"
      | e :: cs2 =>
        if e = 'u' then
          match cs2 with
          | h1 :: h2 :: h3 :: h4 :: cs3 =>
            match hexVal h1, hexVal h2, hexVal h3, hexVal h4 with
            | some a, some b, some c2, some d =>
              match parseStringBody f cs3 with
              | .ok (rest, tl) =>
                .ok (Char.ofNat (((a * 16 + b) * 16 + c2) * 16 + d) :: rest, tl)
              | .error e2 => .error e2
            | _, _, _, _ => .error "Bad unicode escape in JSON"
          | _ => .error "Bad unicode escape in JSON"
        else
          match escMap e with
          | some ch =>
            match parseStringBody f cs2 with
            | .ok (rest, tl) => .ok (ch :: rest, tl)
            | .error e2 => .error e2
          | none => .error "Bad escape in JSON"
    else
      match parseStringBody f cs with
      | .ok (rest, tl) => .ok (c :: rest, tl)
      | .error e2 => .error e2

/-- Read a run of decimal digits. -/
def takeDigits : List Char → (List Char × List Char)
  | [] => ([], [])
  | c :: cs =>
    if c.isDigit then
      let (d, r) := takeDigits cs
      (c :: d, r)
    else ([], c :: cs)

/-- Digits to a natural number. -/
def digitsToNat : List Char → Nat → Nat
  | [], acc => acc
  | c :: cs, acc => digitsToNat cs (acc * 10 + (c.toNat - '0'.toNat))

mutual
/-- Read one JSON value. -/
def parseJ : Nat → List Char → Except String (JVal × List Char)
  | 0, _ => .error "JSON reader out of fuel"
  | f + 1, cs =>
    match skipWs cs with
    | [] => .error "Unexpected end of JSON input"
    | c :: rest =>
      if c = 'n' then
        if startsList ['u', 'l', 'l'] rest then .ok (.jnull, rest.drop 3)
        else .error "Unexpected token in JSON"
      else if c = 't' then
        if startsList ['r', 'u', 'e'] rest then .ok (.jbool true, rest.drop 3)
        else .error "Unexpected token in JSON"
      else if c = 'f' then
        if startsList ['a', 'l', 's', 'e'] rest then .ok (.jbool false, rest.drop 4)
        else .error "Unexpected token in JSON"
      else if c = '"' then
        match parseStringBody (2 * rest.length + 2) rest with
        | .ok (content, tl) => .ok (.jstr (String.mk content), tl)
        | .error e => .error e
      else if c = '-' then
        match takeDigits rest with
        | ([], _) => .error "Unexpected token in JSON"
        | (ds, r) =>
          match r with
          | '.' :: _ => .error "Fractional JSON numbers not modelled"
          | 'e' :: _ => .error "Exponent JSON numbers not modelled"
          | 'E' :: _ => .error "Exponent JSON numbers not modelled"
          | _ => .ok (.jnum (-(digitsToNat ds 0 : Int)), r)
      else if c.isDigit then
        match takeDigits (c :: rest) with
        | ([], _) => .error "Unexpected token in JSON"
        | (ds, r) =>
          match r with
          | '.' :: _ => .error "Fractional JSON numbers not modelled"
          | 'e' :: _ => .error "Exponent JSON numbers not modelled"
          | 'E' :: _ => .error "Exponent JSON numbers not modelled"
          | _ => .ok (.jnum (digitsToNat ds 0 : Int), r)
      else if c = '[' then
        parseArrItems f rest
      else .error "Unexpected token in JSON"

/-- Read the items of a JSON array after the opening bracket. -/
def parseArrItems : Nat → List Char → Except String (JVal × List Char)
  | 0, _ => .error "JSON reader out of fuel"
  | f + 1, cs =>
    match skipWs cs with
    | ']' :: tl => .ok (.jarr [], tl)
    | cs2 =>
      match parseJ f cs2 with
      | .error e => .error e
      | .ok (v, r) => parseArrTail f [v] r

/-- Read `, item`* `]` continuing an array. -/
def parseArrTail : Nat → List JVal → List Char → Except String (JVal × List Char)
  | 0, _, _ => .error "JSON reader out of fuel"
  | f + 1, acc, cs =>
    match skipWs cs with
    | ']' :: tl => .ok (.jarr acc.reverse, tl)
    | ',' :: cs2 =>
      match parseJ f cs2 with
      | .error e => .error e
      | .ok (v, r) => parseArrTail f (v :: acc) r
    | _ => .error "Expected comma or bracket in JSON array"
end

/-- `JSON.parse` on a string: reads one value, allowing only trailing
whitespace afterwards. -/
def jsonParseStr (s : String) : Except String JVal :=
  let cs := s.toList
  match parseJ (4 * cs.length + 8) cs with
  | .error e => .error e
  | .ok (v, rest) =>
    match skipWs rest with
    | [] => .ok v
    | _ => .error "Unexpected non-whitespace character after JSON"

/-- `JSON.parse` applied to an arbitrary value: non-strings are first coerced
to a string (so `JSON.parse(null)` parses `"null"` and succeeds, while
`JSON.parse(undefined)` fails on `"undefined"`). -/
def jsonParseJs : JVal → Except String JVal
  | .jstr s => jsonParseStr s
  | v => jsonParseStr (jsToStr v)

/-! ### Decoded result types

The record shapes assembled by `GeminiClient.parseResponse`.  Field values of
the positional payload stay `JVal` (the source stores whatever the backend
sent); only `mimeType` is always a string, produced by `detectMimeType`. -/

/-- One image entry (`type` is `"web_image"` or `"generated_image"`). -/
structure ImageInfo where
  itype : String
  url : JVal
  title : JVal
  alt : JVal

/-- One file attachment entry. -/
structure FileAttachment where
  fileName : JVal
  mimeType : String
  url : JVal
  title : JVal
  content : JVal

/-- One code block entry. -/
structure CodeBlock where
  language : JVal
  code : JVal

/-- Code execution result (`candidate[16]`). -/
structure CodeExecResult where
  output : JVal
  error : JVal

/-- Factuality judgement (`candidate[45]`). -/
structure Factuality where
  rating : JVal
  confidence : JVal

/-- One web citation (`candidate[11]`). -/
structure SourceInfo where
  title : JVal
  url : JVal
  snippet : JVal

/-- One decoded response candidate. -/
structure Candidate where
  rcid : JVal
  text : JVal
  thoughts : JVal
  webImages : List ImageInfo
  generatedImages : List ImageInfo
  images : List ImageInfo
  fileAttachments : List FileAttachment
  codeBlocks : List CodeBlock
  codeExecutionResult : Option CodeExecResult
  factuality : Option Factuality
  sources : List SourceInfo

/-- The object returned by `parseResponse`: shared metadata, the candidate
list, and a denormalized copy of the first candidate's fields. -/
structure GenerationResult where
  metadata : JVal
  candidates : List Candidate
  text : JVal
  thoughts : JVal
  images : List ImageInfo
  webImages : List ImageInfo
  generatedImages : List ImageInfo
  fileAttachments : List FileAttachment
  codeBlocks : List CodeBlock
  codeExecutionResult : Option CodeExecResult
  factuality : Option Factuality
  sources : List SourceInfo
  rcid : JVal

/-- Mutable state of a `GeminiClient` instance (constructor fields).
`parseResponse` is a method on this state but reads none of it: the theorems
below make that observable. -/
structure ClientState where
  cookies : List (String × String)
  proxy : JVal
  running : Bool
  accessToken : JVal
  timeout : Int
  autoRefresh : Bool
  refreshIntervalId : Option Nat

/-! ### Regex models

The three regular expressions `parseResponse` applies to candidate text,
modelled as character-list scanners with the same matching discipline. -/

/-- Literal part of `/^http:\/\/googleusercontent\.com\/card_content\/\d+/`. -/
def cardLit : List Char := "http://googleusercontent.com/card_content/".toList

/-- Test of the card-content placeholder pattern: the literal prefix followed
by at least one digit (anchored at the start, rest unconstrained). -/
def cardTest (l : List Char) : Bool :=
  startsList cardLit l &&
    (match l.drop cardLit.length with
     | d :: _ => d.isDigit
     | [] => false)

/-- JavaScript `text.match(cardRegex) !== null`: only strings have `.match`;
calling it on a truthy non-string throws a TypeError. -/
def jsMatchCardTest : JVal → Except String Bool
  | .jstr s => .ok (cardTest s.toList)
  | _ => .error "text.match is not a function"

/-- Literal part of the immersive-entry-chip pattern
`/http:\/\/googleusercontent\.com\/immersive_entry_chip\/(\d+)/g`. -/
def chipLit : List Char := "http://googleusercontent.com/immersive_entry_chip/".toList

/-- All matches of the chip pattern in a character list (global scan:
after a match the scan resumes past it, otherwise it advances one
character). Each match is the literal followed by a maximal non-empty
digit run. -/
def chipScan : Nat → List Char → List String
  | 0, _ => []
  | _ + 1, [] => []
  | f + 1, l =>
    if startsList chipLit l then
      let rest := l.drop chipLit.length
      let ds := rest.takeWhile Char.isDigit
      if ds.isEmpty then
        match l with
        | _ :: tl => chipScan f tl
        | [] => []
      else
        String.mk (chipLit ++ ds) :: chipScan f (rest.drop ds.length)
    else
      match l with
      | _ :: tl => chipScan f tl
      | [] => []

/-- JavaScript `text.match(chipRegexGlobal)`: `null` when there is no match,
otherwise the array of full match strings; throws on non-strings. -/
def jsMatchChip : JVal → Except String JVal
  | .jstr s =>
    match chipScan (s.toList.length + 1) s.toList with
    | [] => .ok .jnull
    | ms => .ok (.jarr (ms.map .jstr))
  | _ => .error "text.match is not a function"

/-- Word characters of the regex class `\w`. -/
def isWordChar (c : Char) : Bool := c.isAlphanum || c = '_'

/-- Find the earliest occurrence of a triple backtick fence; returns the
characters before it and the characters after it. -/
def findFence : List Char → Option (List Char × List Char)
  | [] => none
  | c :: rest =>
    if startsList ['\x60', '\x60', '\x60'] (c :: rest) then
      some ([], (c :: rest).drop 3)
    else
      match findFence rest with
      | some (b, a) => some (c :: b, a)
      | none => none

/-- Attempt to match the fenced-code pattern at the current position:
three backticks, an optional word-character language tag, a newline, then a
lazily matched body up to the next three backticks. -/
def tryFenceAt (l : List Char) : Option (String × List Char × List Char) :=
  if startsList ['\x60', '\x60', '\x60'] l then
    let rest := l.drop 3
    let w := rest.takeWhile isWordChar
    match rest.drop w.length with
    | '\n' :: body0 =>
      match findFence body0 with
      | some (body, after) => some (String.mk w, body, after)
      | none => none
    | _ => none
  else none

/-- Global scan of the fenced-code-block regex over text: at each position,
either a full match (resume past it) or advance one character.  Produces the
(language-tag, trimmed body) pairs pushed by the fallback branch; an absent
language tag defaults to `"text"`. -/
def scanCB : Nat → List Char → List CodeBlock
  | 0, _ => []
  | _ + 1, [] => []
  | f + 1, l =>
    match tryFenceAt l with
    | some (lang, body, after) =>
      { language := if lang = "" then .jstr "text" else .jstr lang,
        code := .jstr (jsTrim (String.mk body)) } :: scanCB f after
    | none =>
      match l with
      | _ :: tl => scanCB f tl
      | [] => []

/-- All fenced code blocks of a text, per the fallback regex
`/\x60\x60\x60(\w+)?\n([\s\S]*?)\x60\x60\x60/g`. -/
def scanCodeBlocks (s : String) : List CodeBlock :=
  scanCB (s.toList.length + 1) s.toList

/-! ### `detectMimeType` and the candidate field extractors -/

/-- The fixed extension → MIME table of `GeminiClient.detectMimeType`. -/
def mimeLookup (ext : String) : String :=
  if ext = "js" then "text/javascript"
  else if ext = "ts" then "text/typescript"
  else if ext = "py" then "text/x-python"
  else if ext = "cpp" then "text/x-c++"
  else if ext = "c" then "text/x-c"
  else if ext = "h" then "text/x-c"
  else if ext = "hpp" then "text/x-c++"
  else if ext = "java" then "text/x-java"
  else if ext = "cs" then "text/x-csharp"
  else if ext = "php" then "text/x-php"
  else if ext = "rb" then "text/x-ruby"
  else if ext = "go" then "text/x-go"
  else if ext = "rs" then "text/x-rust"
  else if ext = "swift" then "text/x-swift"
  else if ext = "kt" then "text/x-kotlin"
  else if ext = "html" then "text/html"
  else if ext = "css" then "text/css"
  else if ext = "json" then "application/json"
  else if ext = "xml" then "application/xml"
  else if ext = "sh" then "application/x-sh"
  else if ext = "bash" then "application/x-sh"
  else if ext = "txt" then "text/plain"
  else if ext = "md" then "text/markdown"
  else if ext = "sql" then "application/sql"
  else if ext = "yaml" then "text/yaml"
  else if ext = "yml" then "text/yaml"
  else "text/plain"

/-- Last element of a split result (JavaScript `.pop()` on the non-empty
array `fileName.split('.')`). -/
def lastSeg (l : List String) : String :=
  match l with
  | [] => ""
  | [x] => x
  | _ :: y :: r => lastSeg (y :: r)

/-- `GeminiClient.detectMimeType`: falsy file names give `"text/plain"`;
string names are split on `'.'`, the last segment lowercased and looked up;
truthy non-string names throw (`split` is not a function on them). -/
def detectMimeTypeE (_c : ClientState) (fileName : JVal) : Except String String :=
  if !truthy fileName then .ok "text/plain"
  else
    match fileName with
    | .jstr s => .ok (mimeLookup (String.toLower (lastSeg (jsSplit '.' s))))
    | _ => .error "fileName.split is not a function"

/-- Card-content replacement applied to `candidate[1][0]`: when the text is a
truthy string matching the placeholder pattern, replace it with
`(candidate[22] && candidate[22][0]) || text`; a truthy non-string text makes
the `.match` call throw. -/
def cardReplace (cand text : JVal) : Except String JVal :=
  if truthy text then
    match jsMatchCardTest text with
    | .error e => .error e
    | .ok isCard =>
      if isCard then
        let c22 := idx0 cand 22
        let v := if truthy c22 then idx0 c22 0 else c22
        .ok (jsOr v text)
      else .ok text
  else .ok text

/-- `thoughts` extraction (`candidate[37][0][0]` behind truthiness guards;
the surrounding try/catch can never fire because every read is guarded). -/
def extractThoughts (cand : JVal) : JVal :=
  let c37 := idx0 cand 37
  if truthy c37 then
    let c370 := idx0 c37 0
    if truthy c370 then idx0 c370 0 else .jnull
  else .jnull

/-- Loop body of the file-attachment extraction: entries already pushed are
kept when a later iteration throws (the catch aborts the loop only). -/
def fileLoop (dm : JVal → Except String String) (chips : JVal) :
    List JVal → List FileAttachment → List FileAttachment
  | [], acc => acc.reverse
  | f :: rest, acc =>
    if truthy f && isJsArr f && decide (jarrLen f ≥ 5) then
      match dm (idx0 f 0) with
      | .error _ => acc.reverse
      | .ok mt =>
        fileLoop dm chips rest
          ({ fileName := jsOr (idx0 f 0) (.jstr "file.txt"),
             mimeType := mt,
             url := if truthy chips then idx0 chips 0 else .jnull,
             title := jsOr (idx0 f 2) .jnull,
             content := jsOr (idx0 f 4) .jnull } :: acc)
    else fileLoop dm chips rest acc

/-- File attachment extraction (try/catch block): compute the chip matches of
the text (a non-string text throws, leaving the list empty), then iterate
`candidate[30]` when it is an array, pushing 5-tuples. -/
def extractFileAttachments (dm : JVal → Except String String) (text cand : JVal) :
    List FileAttachment :=
  match jsMatchChip text with
  | .error _ => []
  | .ok chips =>
    let c30 := idx0 cand 30
    if truthy c30 && isJsArr c30 then
      fileLoop dm chips (jsElems c30) []
    else []

/-- Structured code blocks from `candidate[14]`: each truthy entry with a
truthy `[1]` field contributes `{language: [0] || 'text', code: [1]}`. -/
def structuredCodeBlocks (cand : JVal) : List CodeBlock :=
  let c14 := idx0 cand 14
  if truthy c14 && isJsArr c14 then
    (jsElems c14).filterMap (fun code =>
      if truthy code && truthy (idx0 code 1) then
        some { language := jsOr (idx0 code 0) (.jstr "text"), code := idx0 code 1 }
      else none)
  else []

/-- Code block extraction: the structured entries, falling back to the fenced
scan of the text exactly when the structured pass pushed nothing and the text
is truthy (the source condition is `codeBlocks.length === 0 && text`). -/
def codeBlocksOf (cand text : JVal) : List CodeBlock :=
  let primary := structuredCodeBlocks cand
  if primary.length = 0 && truthy text then scanCodeBlocks (jsToStr text)
  else primary

/-- Code execution result (`candidate[16]` behind truthiness guards). -/
def extractCodeExec (cand : JVal) : Option CodeExecResult :=
  let c16 := idx0 cand 16
  if truthy c16 && truthy (idx0 c16 0) then
    some { output := idx0 c16 0, error := jsOr (idx0 c16 1) .jnull }
  else none

/-- Factuality judgement (`candidate[45]`). -/
def extractFactuality (cand : JVal) : Option Factuality :=
  let c45 := idx0 cand 45
  if truthy c45 then
    some { rating := jsOr (idx0 c45 0) .jnull, confidence := jsOr (idx0 c45 1) .jnull }
  else none

/-- Web citations (`candidate[11]`): entries whose `[0]` is truthy contribute
title/url/snippet with empty-string defaults. -/
def extractSources (cand : JVal) : List SourceInfo :=
  let c11 := idx0 cand 11
  if truthy c11 && isJsArr c11 then
    (jsElems c11).filterMap (fun src =>
      if truthy src && truthy (idx0 src 0) then
        some { title := jsOr (idx0 (idx0 src 0) 0) (.jstr ""),
               url := jsOr (idx0 (idx0 src 0) 1) (.jstr ""),
               snippet := jsOr (idx0 (idx0 src 0) 2) (.jstr "") }
      else none)
  else []

/-- Web image loop (`for (const webImage of candidate[12][1])`): there is no
try/catch, so the first malformed entry propagates a TypeError out of the
whole candidate loop. -/
def webImageLoop : List JVal → List ImageInfo → Except String (List ImageInfo)
  | [], acc => .ok acc.reverse
  | wi :: rest, acc =>
    match (do
      let a ← jsIdxE wi 0
      let b ← jsIdxE a 0
      let u ← jsIdxE b 0
      let t7 ← jsIdxE wi 7
      let t ← jsIdxE t7 0
      let a2 ← jsIdxE wi 0
      let al ← jsIdxE a2 4
      pure (u, t, al) : Except String (JVal × JVal × JVal)) with
    | .error e => .error e
    | .ok (u, t, al) =>
      webImageLoop rest ({ itype := "web_image", url := u, title := t, alt := al } :: acc)

/-- Web image extraction: guarded at the list level
(`candidate[12] && candidate[12][1]`), not per item; a non-iterable truthy
list or a malformed entry throws. -/
def extractWebImages (cand : JVal) : Except String (List ImageInfo) :=
  let c12 := idx0 cand 12
  if truthy c12 && truthy (idx0 c12 1) then
    match jsForOf (idx0 c12 1) with
    | .error e => .error e
    | .ok items => webImageLoop items []
  else .ok []

/-- One generated-image entry, best effort: a failing `[0][3][3]` read skips
the entry (the per-item try/catch); title and alt are guarded reads. -/
def genImageItem (gi : JVal) : Option ImageInfo :=
  match (do
    let a ← jsIdxE gi 0
    let b ← jsIdxE a 3
    jsIdxE b 3 : Except String JVal) with
  | .error _ => none
  | .ok u =>
    let g3 := idx0 gi 3
    let title :=
      if truthy g3 && truthy (idx0 g3 6) then
        JVal.jstr ("Generated Image " ++ jsToStr (idx0 g3 6))
      else JVal.jstr "Generated Image"
    let alt :=
      if truthy g3 && truthy (idx0 g3 5) && truthy (idx0 (idx0 g3 5) 0) then
        idx0 (idx0 g3 5) 0
      else JVal.jstr ""
    some { itype := "generated_image", url := u, title := title, alt := alt }

/-- Generated image extraction (`candidate[12][7][0]`): the `for...of` itself
may throw on a non-iterable, but each item is wrapped in try/catch and a
malformed item is skipped, never fatal. -/
def extractGenImages (cand : JVal) : Except String (List ImageInfo) :=
  let c12 := idx0 cand 12
  if truthy c12 && truthy (idx0 c12 7) && truthy (idx0 (idx0 c12 7) 0) then
    match jsForOf (idx0 (idx0 c12 7) 0) with
    | .error e => .error e
    | .ok items =>
      .ok (items.foldl (fun acc gi =>
        match genImageItem gi with
        | some img => acc ++ [img]
        | none => acc) [])
  else .ok []

/-- Decode one candidate entry, in source order: text (with card-content
replacement), thoughts, file attachments, code blocks, execution result,
factuality, sources, web images (fallible), generated images. -/
def parseCandidate (dm : JVal → Except String String) (cand : JVal) :
    Except String Candidate := do
  let t1 ← jsIdxE cand 1
  let rawText ← jsIdxE t1 0
  let text ← cardReplace cand rawText
  let thoughts := extractThoughts cand
  let fileAtts := extractFileAttachments dm text cand
  let blocks := codeBlocksOf cand text
  let exec := extractCodeExec cand
  let fact := extractFactuality cand
  let srcs := extractSources cand
  let webImgs ← extractWebImages cand
  let genImgs ← extractGenImages cand
  let rcid ← jsIdxE cand 0
  pure { rcid := rcid, text := text, thoughts := thoughts,
         webImages := webImgs, generatedImages := genImgs,
         images := webImgs ++ genImgs, fileAttachments := fileAtts,
         codeBlocks := blocks, codeExecutionResult := exec,
         factuality := fact, sources := srcs }

/-- Candidate loop over `body[4]`. -/
def candLoop (dm : JVal → Except String String) :
    List JVal → List Candidate → Except String (List Candidate)
  | [], acc => .ok acc.reverse
  | cd :: rest, acc =>
    match parseCandidate dm cd with
    | .error e => .error e
    | .ok one => candLoop dm rest (one :: acc)

/-- Decode the located body: iterate the candidate list at `body[4]`, fail
with "No candidates found in response" when it decodes to nothing, and
assemble the result with `metadata = body[1]` and the first candidate's
fields mirrored at the top level. -/
def parseBody (dm : JVal → Except String String) (body : JVal) :
    Except String GenerationResult := do
  let b4 ← jsIdxE body 4
  let _ ← jsLenE b4
  let cands ← candLoop dm (jsElems b4) []
  match cands with
  | [] => .error "No candidates found in response"
  | c0 :: _ => do
    let md ← jsIdxE body 1
    pure { metadata := md, candidates := cands, text := c0.text,
           thoughts := c0.thoughts, images := c0.images,
           webImages := c0.webImages, generatedImages := c0.generatedImages,
           fileAttachments := c0.fileAttachments, codeBlocks := c0.codeBlocks,
           codeExecutionResult := c0.codeExecutionResult,
           factuality := c0.factuality, sources := c0.sources,
           rcid := c0.rcid }

/-- Inner try of the body-locating loop: JSON-decode the element's index-2
field; the decoded value qualifies as the body exactly when its index-4 field
is truthy; any throw in the attempt just moves to the next element. -/
def decodeMain (elem : JVal) : Option JVal :=
  match (do
    let s2 ← jsIdxE elem 2
    let mp ← jsonParseJs s2
    let f4 ← jsIdxE mp 4
    pure (mp, f4) : Except String (JVal × JVal)) with
  | .ok (mp, f4) => if truthy f4 then some mp else none
  | .error _ => none

/-- The body-locating scan: read `.length` of the decoded line (throws on a
null payload), then take the first element whose decode qualifies. -/
def findBody (rj : JVal) : Except String (Option JVal) :=
  match jsLenE rj with
  | .error e => .error e
  | .ok _ => .ok ((jsElems rj).findSome? decodeMain)

/-- `GeminiClient.parseResponse` with the `detectMimeType` method abstracted
as a function parameter — `parseResponse` instantiates it with the method of
a given client state.  Splits on newlines, requires at least three lines,
JSON-decodes line index 2, locates the body, decodes it, and wraps any
failure as `Failed to parse response: …`. -/
def parseResponseCore (dm : JVal → Except String String) (responseText : String) :
    Except String GenerationResult :=
  match (do
    let lines := jsSplit '\n' responseText
    if lines.length < 3 then Except.error "Invalid response format"
    else do
      let rj ← jsonParseStr (lines.getD 2 "")
      let b? ← findBody rj
      match b? with
      | none => Except.error "No valid response body found"
      | some body => parseBody dm body : Except String GenerationResult) with
  | .ok r => .ok r
  | .error e => .error ("Failed to parse response: " ++ e)

/-- `GeminiClient.parseResponse` as the instance method: the only piece of
the client a decode can touch is the (state-independent) `detectMimeType`
method. -/
def parseResponse (c : ClientState) (responseText : String) :
    Except String GenerationResult :=
  parseResponseCore (detectMimeTypeE c) responseText

/-! ### JSON serialization (`JSON.stringify`), used by the request encoder -/

/-- Escape one character for a JSON string literal (the characters this
protocol's prompts and pointers can contain). -/
def jsonEscChar (c : Char) : String :=
  if c = '"' then "\\\""
  else if c = '\\' then "\\\\"
  else if c = '\n' then "\\n"
  else if c = '\r' then "\\r"
  else if c = '\t' then "\\t"
  else String.singleton c

/-- Quote a string as a JSON string literal. -/
def jsonQuote (s : String) : String :=
  "\"" ++ String.join (s.toList.map jsonEscChar) ++ "\""

mutual
/-- `JSON.stringify` on a value appearing inside an array position:
`undefined` serializes as `null` there. -/
def stringifyV : JVal → String
  | .undefined => "null"
  | .jnull => "null"
  | .jbool b => if b then "true" else "false"
  | .jnum n => toString n
  | .jstr s => jsonQuote s
  | .jarr l => "[" ++ stringifyL l ++ "]"

/-- Comma-joined serialization of array elements. -/
def stringifyL : List JVal → String
  | [] => ""
  | [v] => stringifyV v
  | v :: w :: r => stringifyV v ++ "," ++ stringifyL (w :: r)
end

/-! ### ChatSession -/

/-- `ChatSession` state: the continuation pointer (`metadata`, a JS value
that the constructor initializes to `[null, null, null]`) and the last
output.  The client back-reference and model selector carry no
pointer-relevant state and are omitted. -/
structure ChatSession where
  metadata : JVal
  lastOutput : Option GenerationResult

/-- Ascending assignment loop `for (let i = …; count steps) pointer[i] = src[i]`. -/
def assignSlots (src : JVal) : JVal → Nat → Nat → Except String JVal
  | p, 0, _ => .ok p
  | p, k + 1, i =>
    match jsIdxE src i with
    | .error e => .error e
    | .ok v =>
      match jsSetIdxE p i v with
      | .error e => .error e
      | .ok p2 => assignSlots src p2 k (i + 1)

/-- `ChatSession.setMetadata`: reject a source whose `.length` exceeds 3,
otherwise overwrite slots `0 … length-1` of the pointer (a source without a
numeric length runs zero iterations). -/
def ChatSession.setMetadata (s : ChatSession) (m : JVal) : Except String ChatSession :=
  match jsLenE m with
  | .error e => .error e
  | .ok lv =>
    if jsGtInt lv 3 then .error "Metadata cannot exceed 3 elements"
    else
      match assignSlots m s.metadata (jsLoopBound lv) 0 with
      | .error e => .error e
      | .ok p => .ok { s with metadata := p }

/-- The `cid` setter (`metadata[0] = value`). -/
def ChatSession.setCid (s : ChatSession) (v : JVal) : Except String ChatSession :=
  match jsSetIdxE s.metadata 0 v with
  | .error e => .error e
  | .ok p => .ok { s with metadata := p }

/-- The `rid` setter (`metadata[1] = value`). -/
def ChatSession.setRid (s : ChatSession) (v : JVal) : Except String ChatSession :=
  match jsSetIdxE s.metadata 1 v with
  | .error e => .error e
  | .ok p => .ok { s with metadata := p }

/-- The `rcid` setter (`metadata[2] = value`). -/
def ChatSession.setRcid (s : ChatSession) (v : JVal) : Except String ChatSession :=
  match jsSetIdxE s.metadata 2 v with
  | .error e => .error e
  | .ok p => .ok { s with metadata := p }

/-- The `cid` getter (`metadata[0]`). -/
def ChatSession.cidGet (s : ChatSession) : Except String JVal := jsIdxE s.metadata 0

/-- The `rid` getter (`metadata[1]`). -/
def ChatSession.ridGet (s : ChatSession) : Except String JVal := jsIdxE s.metadata 1

/-- The `rcid` getter (`metadata[2]`). -/
def ChatSession.rcidGet (s : ChatSession) : Except String JVal := jsIdxE s.metadata 2

/-- Constructor options of `ChatSession` (each `undefined` when absent). -/
structure ChatOptions where
  metadata : JVal := .undefined
  cid : JVal := .undefined
  rid : JVal := .undefined
  rcid : JVal := .undefined

/-- The `ChatSession` constructor: pointer starts as `[null, null, null]`;
a truthy `options.metadata` goes through `setMetadata` (so an overlong
source is rejected at construction), and truthy `cid`/`rid`/`rcid` options
go through the slot setters. -/
def ChatSession.create (o : ChatOptions) : Except String ChatSession :=
  match (if truthy o.metadata then
      ChatSession.setMetadata ⟨.jarr [.jnull, .jnull, .jnull], none⟩ o.metadata
    else .ok ⟨.jarr [.jnull, .jnull, .jnull], none⟩) with
  | .error e => .error e
  | .ok s1 =>
    match (if truthy o.cid then s1.setCid o.cid else .ok s1) with
    | .error e => .error e
    | .ok s2 =>
      match (if truthy o.rid then s2.setRid o.rid else .ok s2) with
      | .error e => .error e
      | .ok s3 => if truthy o.rcid then s3.setRcid o.rcid else .ok s3

/-- `ChatSession.chooseCandidate`: requires a previous output; the only
range guard is `index >= candidates.length`, so a negative index reaches
`candidates[index]`, gets `undefined`, and the `chosen.rcid` read throws a
TypeError before any state change.  A valid index writes the chosen
candidate's id into pointer slot 2 and returns the last output with the
candidate-specific fields replaced. -/
def ChatSession.chooseCandidate (s : ChatSession) (index : Int) :
    Except String (ChatSession × GenerationResult) :=
  match s.lastOutput with
  | none => .error "No previous output in this chat session"
  | some out =>
    if index ≥ (out.candidates.length : Int) then
      .error ("Index " ++ toString index ++ " exceeds number of candidates")
    else
      if h : 0 ≤ index ∧ index.toNat < out.candidates.length then
        let chosen := out.candidates.get ⟨index.toNat, h.2⟩
        match jsSetIdxE s.metadata 2 chosen.rcid with
        | .error e => .error e
        | .ok p =>
          .ok ({ s with metadata := p },
               { out with text := chosen.text, thoughts := chosen.thoughts,
                          images := chosen.images, webImages := chosen.webImages,
                          generatedImages := chosen.generatedImages,
                          fileAttachments := chosen.fileAttachments,
                          codeBlocks := chosen.codeBlocks,
                          codeExecutionResult := chosen.codeExecutionResult,
                          factuality := chosen.factuality,
                          sources := chosen.sources, rcid := chosen.rcid })
      else .error "Cannot read properties of undefined"

/-! ### generateContent and the client lifecycle -/

/-- `GeminiClient.close`: stops auto-refresh and leaves the Ready state. -/
def GeminiClient.close (c : ClientState) : ClientState :=
  { c with running := false, refreshIntervalId := none }

/-- The guard-and-encode prefix of `GeminiClient.generateContent`
(source lines 143–167): an empty or all-whitespace prompt fails before
anything else; a client that is not running fails next; otherwise the
`f.req` form field is built as
`JSON.stringify([null, JSON.stringify([[prompt], null, chat?.metadata ?? null])])`. -/
def generateContentEnvelope (c : ClientState) (chat : Option ChatSession)
    (prompt : String) : Except String String :=
  if prompt = "" || jsTrim prompt = "" then .error "Prompt cannot be empty"
  else if !c.running then .error "Client not initialized. Call init() first."
  else
    let inner := stringifyV (.jarr [.jarr [.jstr prompt], .jnull,
      (match chat with | some ch => ch.metadata | none => .jnull)])
    .ok (stringifyV (.jarr [.jnull, .jstr inner]))

/-- The chat update of a successful `generateContent`
(source lines 198–202): `chat.lastOutput = output; chat.metadata =
output.metadata; chat.rcid = output.rcid`.  The metadata assignment copies
the decoded `body[1]` into the pointer with no validation; the subsequent
`rcid` setter may throw (non-array pointer), in which case the first two
assignments persist. -/
def updateChatAfterOutput (ch : ChatSession) (out : GenerationResult) :
    ChatSession × Option String :=
  let c1 : ChatSession := { ch with lastOutput := some out, metadata := out.metadata }
  match jsSetIdxE c1.metadata 2 out.rcid with
  | .ok m2 => ({ c1 with metadata := m2 }, none)
  | .error e => (c1, some e)

/-- One whole `generateContent` call against a pure transport oracle
(request body ↦ raw response text, the 200-status happy path): returns the
outcome together with the client state, the chat state, and the list of
requests actually issued. -/
def generateContentRun (c : ClientState) (chat : Option ChatSession)
    (prompt : String) (transport : String → String) :
    Except String GenerationResult × ClientState × Option ChatSession × List String :=
  match generateContentEnvelope c chat prompt with
  | .error e => (.error e, c, chat, [])
  | .ok req =>
    match parseResponse c (transport req) with
    | .error e => (.error e, c, chat, [req])
    | .ok out =>
      match chat with
      | none => (.ok out, c, none, [req])
      | some ch =>
        match updateChatAfterOutput ch out with
        | (ch2, none) => (.ok out, c, some ch2, [req])
        | (ch2, some e) => (.error e, c, some ch2, [req])

/-! ### Concrete protocol inputs exercised by the verification scenarios -/

/-- A sample client state (contents irrelevant to decoding). -/
def client0 : ClientState := ⟨[], .jnull, false, .jnull, 300000, true, none⟩

/-- The exact three-line raw text of decoding Scenario A. -/
def rawA : String := "...\n...\n[[null,null,\"[null,null,null,[[[0,[\\\"hi\\\"]]]]]\"]]"

/-- Scenario A's raw text with the body fixed so that the candidate list
actually sits at body index 4: `[null,null,null,null,[[0,["hi"]]]]`. -/
def rawAok : String := "...\n...\n[[null,null,\"[null,null,null,null,[[0,[\\\"hi\\\"]]]]\"]]"

/-- Wrap a body JSON text in the protocol envelope: three lines, line index 2
an outer array with one element whose index-2 field is the JSON-quoted body. -/
def mkRaw (bodyJson : String) : String :=
  "...\n...\n[[null,null," ++ jsonQuote bodyJson ++ "]]"

/-- The single decoded candidate of `rawAok`. -/
def candA : Candidate :=
  { rcid := .jnum 0, text := .jstr "hi", thoughts := .jnull,
    webImages := [], generatedImages := [], images := [],
    fileAttachments := [], codeBlocks := [], codeExecutionResult := none,
    factuality := none, sources := [] }

/-- The full decode of `rawAok`. -/
def resultA : GenerationResult :=
  { metadata := .jnull, candidates := [candA], text := .jstr "hi",
    thoughts := .jnull, images := [], webImages := [], generatedImages := [],
    fileAttachments := [], codeBlocks := [], codeExecutionResult := none,
    factuality := none, sources := [], rcid := .jnum 0 }

/-- A body whose candidate has no index-12 entry at all. -/
def raw2a : String := mkRaw "[null,null,null,null,[[0,[\"hi\"]]]]"

/-- A body whose candidate has `candidate[12][1] = [null]`: one malformed
web-image entry. -/
def raw2b : String := mkRaw "[null,null,null,null,[[0,[\"hi\"],null,null,null,null,null,null,null,null,null,null,[null,[null]]]]]"

/-- A body whose candidate has `candidate[12][7][0] = [null, G]` with a
malformed first generated-image entry and a well-formed second one. -/
def raw2c : String := mkRaw "[null,null,null,null,[[0,[\"hi\"],null,null,null,null,null,null,null,null,null,null,[null,null,null,null,null,null,null,[[null,[[null,null,null,[null,null,null,\"http://u\"]],null,null,[null,null,null,null,null,[\"alt text\"],7]]]]]]]]"

/-- The well-formed generated image of `raw2c`. -/
def genImg2c : ImageInfo :=
  { itype := "generated_image", url := .jstr "http://u",
    title := .jstr "Generated Image 7", alt := .jstr "alt text" }

/-- The candidate of `raw2a` (same shape as `candA`). -/
def cand2a : Candidate :=
  { rcid := .jnum 0, text := .jstr "hi", thoughts := .jnull,
    webImages := [], generatedImages := [], images := [],
    fileAttachments := [], codeBlocks := [], codeExecutionResult := none,
    factuality := none, sources := [] }

/-- The full decode of `raw2a`. -/
def result2a : GenerationResult :=
  { metadata := .jnull, candidates := [cand2a], text := .jstr "hi",
    thoughts := .jnull, images := [], webImages := [], generatedImages := [],
    fileAttachments := [], codeBlocks := [], codeExecutionResult := none,
    factuality := none, sources := [], rcid := .jnum 0 }

/-- The candidate of `raw2c`: the malformed generated image is skipped, the
well-formed one kept. -/
def cand2c : Candidate :=
  { rcid := .jnum 0, text := .jstr "hi", thoughts := .jnull,
    webImages := [], generatedImages := [genImg2c], images := [genImg2c],
    fileAttachments := [], codeBlocks := [], codeExecutionResult := none,
    factuality := none, sources := [] }

/-- The full decode of `raw2c`. -/
def result2c : GenerationResult :=
  { metadata := .jnull, candidates := [cand2c], text := .jstr "hi",
    thoughts := .jnull, images := [genImg2c], webImages := [],
    generatedImages := [genImg2c], fileAttachments := [], codeBlocks := [],
    codeExecutionResult := none, factuality := none, sources := [],
    rcid := .jnum 0 }

/-- Body JSON whose candidate has a NON-empty `candidate[14]` (one entry,
`[null,null]`, with a falsy code field) and a fenced `python` block in its
text. -/
def body3x : String := "[null,null,null,null,[[0,[\"x \\u0060\\u0060\\u0060python\\nprint(1)\\n\\u0060\\u0060\\u0060\"],null,null,null,null,null,null,null,null,null,null,null,null,[[null,null]]]]]"

/-- `body3x` wrapped in the envelope. -/
def raw3x : String := mkRaw body3x

/-- The outer JSON value of `body3x` (used to exhibit that its
`candidate[14]` is non-empty). -/
def body3xVal : JVal :=
  .jarr [.jnull, .jnull, .jnull, .jnull,
    .jarr [.jarr [.jnum 0,
      .jarr [.jstr "x \u0060\u0060\u0060python\nprint(1)\n\u0060\u0060\u0060"],
      .jnull, .jnull, .jnull, .jnull, .jnull, .jnull, .jnull, .jnull, .jnull,
      .jnull, .jnull, .jnull, .jarr [.jarr [.jnull, .jnull]]]]]

/-- Scenario E body: `candidate[14]` is the empty array and the text carries
a fenced `python` block. -/
def raw3e : String := mkRaw "[null,null,null,null,[[0,[\"x \\u0060\\u0060\\u0060python\\nprint(1)\\n\\u0060\\u0060\\u0060\"],null,null,null,null,null,null,null,null,null,null,null,null,[]]]]"

/-- A body with a structured `candidate[14]` entry `["go","x := 1"]` AND a
fenced block in the text: the structured entry must win. -/
def raw3p : String := mkRaw "[null,null,null,null,[[0,[\"x \\u0060\\u0060\\u0060python\\nprint(1)\\n\\u0060\\u0060\\u0060\"],null,null,null,null,null,null,null,null,null,null,null,null,[[\"go\",\"x := 1\"]]]]]"

/-- A tiny candidate value with a structured `candidate[14]` entry, used to
instantiate the code-block source-exclusivity facts. -/
def candP : JVal :=
  .jarr [.jnull, .jnull, .jnull, .jnull, .jnull, .jnull, .jnull, .jnull,
         .jnull, .jnull, .jnull, .jnull, .jnull, .jnull,
         .jarr [.jarr [.jstr "go", .jstr "x"]]]

/-- The decoded candidate shared by the three C3 inputs, parametrized by its
code blocks (the text is the same in all three). -/
def cand3 (blocks : List CodeBlock) : Candidate :=
  { rcid := .jnum 0,
    text := .jstr "x \u0060\u0060\u0060python\nprint(1)\n\u0060\u0060\u0060",
    thoughts := .jnull, webImages := [], generatedImages := [], images := [],
    fileAttachments := [], codeBlocks := blocks, codeExecutionResult := none,
    factuality := none, sources := [] }

/-- The full decode shared by the three C3 inputs. -/
def result3 (blocks : List CodeBlock) : GenerationResult :=
  { metadata := .jnull, candidates := [cand3 blocks],
    text := .jstr "x \u0060\u0060\u0060python\nprint(1)\n\u0060\u0060\u0060",
    thoughts := .jnull, images := [], webImages := [], generatedImages := [],
    fileAttachments := [], codeBlocks := blocks, codeExecutionResult := none,
    factuality := none, sources := [], rcid := .jnum 0 }

/-- A candidate and an output for the `chooseCandidate` scenarios. -/
def cand5 : Candidate :=
  { rcid := .jnum 0, text := .jstr "hi", thoughts := .jnull,
    webImages := [], generatedImages := [], images := [],
    fileAttachments := [], codeBlocks := [], codeExecutionResult := none,
    factuality := none, sources := [] }

/-- A prior output with exactly one candidate whose fields are already
mirrored at the top level. -/
def out5prior : GenerationResult :=
  { metadata := .jnull, candidates := [cand5], text := .jstr "hi",
    thoughts := .jnull, images := [], webImages := [], generatedImages := [],
    fileAttachments := [], codeBlocks := [], codeExecutionResult := none,
    factuality := none, sources := [], rcid := .jnum 0 }

/-- A chat session holding `out5prior`. -/
def sess5 : ChatSession := ⟨.jarr [.jnull, .jnull, .jnull], some out5prior⟩

/-- A freshly constructed chat session (3-slot pointer, no output). -/
def chatFresh : ChatSession := ⟨.jarr [.jnull, .jnull, .jnull], none⟩

/-- An output whose decoded `metadata` (`body[1]`) is a 5-element array —
perfectly possible, since `parseResponse` puts whatever the backend sent at
`body[1]` into the result unvalidated. -/
def out6wide : GenerationResult :=
  { metadata := .jarr [.jnull, .jnull, .jnull, .jnull, .jnull],
    candidates := [cand5], text := .jstr "hi", thoughts := .jnull,
    images := [], webImages := [], generatedImages := [],
    fileAttachments := [], codeBlocks := [], codeExecutionResult := none,
    factuality := none, sources := [], rcid := .jstr "rc" }

/-- The 3-slot pointer invariant of the spec. -/
def isJArr3 (v : JVal) : Prop := ∃ x y z, v = .jarr [x, y, z]

/-- Envelope input whose body scan finds no element with a truthy index-4
field. -/
def raw7a : String := mkRaw "[null,null,null,[9]]"

/-- The decoded line-2 value of `raw7a`. -/
def rj7a : JVal := .jarr [.jarr [.jnull, .jnull, .jstr "[null,null,null,[9]]"]]

/-- Envelope input whose located body has an empty candidate list at
index 4 (the empty array is truthy, so the body qualifies). -/
def raw7b : String := mkRaw "[null,null,null,null,[]]"

/-- The decoded line-2 value of `raw7b`. -/
def rj7b : JVal := .jarr [.jarr [.jnull, .jnull, .jstr "[null,null,null,null,[]]"]]

/-- The body located inside `raw7b`. -/
def body7b : JVal := .jarr [.jnull, .jnull, .jnull, .jnull, .jarr []]

/-! ## Theorems -/

/-! ### Claim C1 — decoding Scenario A's exact raw text -/

/-- Claim C1, counterexample: on the exact raw text of Scenario A the decode
FAILS — the body string `[null,null,null,[[[0,["hi"]]]]]` places the
candidate structure at index 3, so no element of the outer array has a
truthy index-4 field and `parseResponse` rejects the whole response instead
of returning a one-candidate result. -/
theorem c1_counterexample :
    parseResponse client0 rawA =
      .error "Failed to parse response: No valid response body found" ∧
    (parseResponse client0 rawA).toOption = none := ⟨rfl, rfl⟩

/-- Claim C1, amended: with the candidate list at body index 4 (body
`[null,null,null,null,[[0,["hi"]]]]`, four leading nulls), the decode
succeeds and returns a GenerationResult with exactly one candidate whose
text is `"hi"` and whose images, codeBlocks and sources lists are all
empty. -/
theorem c1_amended :
    parseResponse client0 rawAok = .ok resultA ∧
    resultA.candidates = [candA] ∧
    candA.text = .jstr "hi" ∧
    candA.images = [] ∧ candA.codeBlocks = [] ∧ candA.sources = [] ∧
    resultA.text = .jstr "hi" ∧
    resultA.images = [] ∧ resultA.codeBlocks = [] ∧ resultA.sources = [] :=
  ⟨rfl, rfl, rfl, rfl, rfl, rfl, rfl, rfl, rfl, rfl⟩

/-! ### Claim C2 — web-image vs generated-image failure confinement -/

/-- Claim C2, counterexample: one malformed entry in `candidate[12][1]`
(here `[null]`) does NOT confine the failure to the web-image list — the
web-image loop has no try/catch, so the TypeError escapes and the ENTIRE
decode fails; no GenerationResult is produced at all. -/
theorem c2_counterexample :
    parseResponse client0 raw2b =
      .error "Failed to parse response: Cannot read properties of null" ∧
    (parseResponse client0 raw2b).toOption = none := ⟨rfl, rfl⟩

/-- Claim C2, amended: when the nested path `candidate[12][1]` is absent the
web-image list is empty without error; when it is present, a malformed
web-image entry makes the WHOLE decode fail (the guard is at the list level
and nothing catches a per-item throw); whereas for generated images iterated
from `candidate[12][7][0]`, an individually malformed entry is skipped and
is never fatal to the decode. -/
theorem c2_amended :
    (∀ cand : JVal, truthy (idx0 (idx0 cand 12) 1) = false →
      extractWebImages cand = .ok []) ∧
    (parseResponse client0 raw2a = .ok result2a ∧ result2a.webImages = []) ∧
    parseResponse client0 raw2b =
      .error "Failed to parse response: Cannot read properties of null" ∧
    (parseResponse client0 raw2c = .ok result2c ∧
      result2c.generatedImages = [genImg2c] ∧ result2c.webImages = []) := by
  refine ⟨?_, ⟨rfl, rfl⟩, rfl, ⟨rfl, rfl, rfl⟩⟩
  intro cand h
  unfold extractWebImages
  simp [h]

/-- Claim C2, witness for the quantified conjunct of `c2_amended`: a
candidate with `candidate[12] = [null, null]` has a falsy `[12][1]` path and
decodes to an empty web-image list without error. -/
theorem c2_witness :
    extractWebImages (.jarr [.jnull, .jnull, .jnull, .jnull, .jnull, .jnull,
      .jnull, .jnull, .jnull, .jnull, .jnull, .jnull,
      .jarr [.jnull, .jnull]]) = .ok [] :=
  c2_amended.1 _ rfl

/-! ### Claim C3 — exclusivity of the two code-block sources -/

/-- Claim C3, counterexample: in `raw3x` the structured list `candidate[14]`
is NON-empty (one entry, `[null,null]`), yet because that entry has a falsy
code field the structured pass pushes nothing and the text IS scanned: the
decoded codeBlocks come from the fenced `python` region of the text.  The
fallback is keyed on `codeBlocks.length === 0`, not on `candidate[14]`
being empty. -/
theorem c3_counterexample :
    parseResponse client0 raw3x =
      .ok (result3 [⟨.jstr "python", .jstr "print(1)"⟩]) ∧
    (result3 [⟨.jstr "python", .jstr "print(1)"⟩]).codeBlocks =
      [⟨.jstr "python", .jstr "print(1)"⟩] ∧
    jsonParseStr body3x = .ok body3xVal ∧
    jarrLen (idx0 (idx0 (idx0 body3xVal 4) 0) 14) = 1 ∧
    structuredCodeBlocks (idx0 (idx0 body3xVal 4) 0) = [] := ⟨rfl, rfl, rfl, rfl, rfl⟩

/-- Claim C3, amended: the decoded codeBlocks come from exactly one source —
whenever the structured pass over `candidate[14]` yields at least one entry,
those entries are used and the text is not scanned; only when the structured
pass yields nothing (in particular when `candidate[14]` is empty) and the
text is truthy is the text scanned for fenced regions.  In particular
Scenario E holds: with `candidate[14]` empty and a fenced block tagged
`python` in the text, codeBlocks is exactly one entry with language
`"python"` and the fenced body trimmed. -/
theorem c3_amended :
    (∀ cand text : JVal, structuredCodeBlocks cand ≠ [] →
      codeBlocksOf cand text = structuredCodeBlocks cand) ∧
    (∀ cand text : JVal, structuredCodeBlocks cand = [] → truthy text = true →
      codeBlocksOf cand text = scanCodeBlocks (jsToStr text)) ∧
    (∀ cand text : JVal, structuredCodeBlocks cand = [] → truthy text = false →
      codeBlocksOf cand text = []) ∧
    (parseResponse client0 raw3e =
        .ok (result3 [⟨.jstr "python", .jstr "print(1)"⟩]) ∧
      (result3 [⟨.jstr "python", .jstr "print(1)"⟩]).codeBlocks =
        [⟨.jstr "python", .jstr "print(1)"⟩]) ∧
    (parseResponse client0 raw3p =
        .ok (result3 [⟨.jstr "go", .jstr "x := 1"⟩]) ∧
      (result3 [⟨.jstr "go", .jstr "x := 1"⟩]).codeBlocks =
        [⟨.jstr "go", .jstr "x := 1"⟩]) := by
  refine ⟨?_, ?_, ?_, ⟨rfl, rfl⟩, ⟨rfl, rfl⟩⟩
  · intro cand text h
    unfold codeBlocksOf
    simp [List.length_eq_zero, h]
  · intro cand text h ht
    unfold codeBlocksOf
    simp [h, ht]
  · intro cand text h ht
    unfold codeBlocksOf
    simp [h, ht]

/-- Claim C3, witness: the three quantified conjuncts of `c3_amended`
instantiated — a candidate with structured entry `["go","x"]` ignores the
fenced text; a bare candidate with truthy text scans it; a bare candidate
with falsy text yields nothing. -/
theorem c3_witness :
    codeBlocksOf candP (.jstr "```a\nb```") =
      structuredCodeBlocks candP ∧
    codeBlocksOf (.jarr []) (.jstr "```a\nb```") =
      scanCodeBlocks (jsToStr (.jstr "```a\nb```")) ∧
    codeBlocksOf (.jarr []) (.jstr "") = [] :=
  ⟨c3_amended.1 candP _ (fun h => List.noConfusion h),
   c3_amended.2.1 (.jarr []) _ rfl rfl,
   c3_amended.2.2.1 (.jarr []) (.jstr "") rfl rfl⟩

/-! ### Shared lemmas about the continuation pointer -/

/-- Writing any slot `i < 3` of a 3-slot pointer succeeds and keeps exactly
3 slots. -/
theorem lem_set_three (a b c v : JVal) (i : Nat) (h : i < 3) :
    ∃ x y z, jsSetIdxE (.jarr [a, b, c]) i v = .ok (.jarr [x, y, z]) := by
  interval_cases i
  · exact ⟨v, b, c, rfl⟩
  · exact ⟨a, v, c, rfl⟩
  · exact ⟨a, b, v, rfl⟩

/-- A value whose `.length` read succeeds is non-nullish, so every indexed
read on it succeeds as well. -/
theorem lem_idx_total (m : JVal) (lv : JVal) (h : jsLenE m = .ok lv) (j : Nat) :
    ∃ w, jsIdxE m j = .ok w := by
  cases m with
  | undefined => exact absurd h (by simp [jsLenE])
  | jnull => exact absurd h (by simp [jsLenE])
  | jbool b => exact ⟨.undefined, rfl⟩
  | jnum n => exact ⟨.undefined, rfl⟩
  | jstr s => exact ⟨_, rfl⟩
  | jarr l => exact ⟨_, rfl⟩

/-- When the overlength guard does not fire, the assignment loop runs at
most 3 iterations. -/
theorem lem_bound_le (lv : JVal) (h : jsGtInt lv 3 = false) : jsLoopBound lv ≤ 3 := by
  cases lv with
  | jnum n =>
    simp [jsGtInt] at h
    simp [jsLoopBound]
    omega
  | undefined => simp [jsLoopBound]
  | jnull => simp [jsLoopBound]
  | jbool b => simp [jsLoopBound]
  | jstr s => simp [jsLoopBound]
  | jarr l => simp [jsLoopBound]

/-- The prefix-assignment loop started at slot `i` with `n` steps,
`i + n ≤ 3`, on a readable source and a 3-slot pointer, succeeds and keeps
exactly 3 slots. -/
theorem lem_assign_three (src : JVal) (lv : JVal) (hsrc : jsLenE src = .ok lv) :
    ∀ (n i : Nat) (a b c : JVal), i + n ≤ 3 →
      ∃ x y z, assignSlots src (.jarr [a, b, c]) n i = .ok (.jarr [x, y, z]) := by
  intro n
  induction n with
  | zero => intro i a b c _; exact ⟨a, b, c, rfl⟩
  | succ k ih =>
    intro i a b c hle
    obtain ⟨w, hw⟩ := lem_idx_total src lv hsrc i
    obtain ⟨x, y, z, hxyz⟩ := lem_set_three a b c w i (by omega)
    obtain ⟨x2, y2, z2, h2⟩ := ih (i + 1) x y z (by omega)
    refine ⟨x2, y2, z2, ?_⟩
    unfold assignSlots
    simp only [hw, hxyz, h2]

/-! ### Claim C4 — setContinuation / setMetadata -/

/-- Claim C4, confirmed: for a triple `T` with at most 3 elements,
`setMetadata` overwrites exactly the first `T.length` slots of the 3-slot
pointer, leaving the trailing slots unchanged, so a subsequent read of the
pointer yields `T` padded with the unchanged trailing slots; for more than
3 elements it fails with the invalid-argument error and the pointer (indeed
the whole session) is unchanged, since the error is raised before any
write. -/
theorem c4_setContinuation (a b c : JVal) (lo : Option GenerationResult)
    (T : List JVal) :
    (T.length ≤ 3 →
      ChatSession.setMetadata ⟨.jarr [a, b, c], lo⟩ (.jarr T) =
        .ok ⟨.jarr (T ++ ([a, b, c].drop T.length)), lo⟩) ∧
    (T.length > 3 →
      ChatSession.setMetadata ⟨.jarr [a, b, c], lo⟩ (.jarr T) =
        .error "Metadata cannot exceed 3 elements") := by
  constructor
  · intro hT
    match T, hT with
    | [], _ => rfl
    | [t0], _ => rfl
    | [t0, t1], _ => rfl
    | [t0, t1, t2], _ => rfl
  · intro hT
    have hgt : jsGtInt (.jnum (T.length : Int)) 3 = true := by
      simp [jsGtInt]; omega
    unfold ChatSession.setMetadata
    simp [jsLenE, hgt]

/-- Claim C4, witness: a 1-element triple overwrites only slot 0; a
4-element triple is rejected. -/
theorem c4_witness :
    ChatSession.setMetadata ⟨.jarr [.jstr "a", .jstr "b", .jstr "c"], none⟩
        (.jarr [.jstr "X"]) =
      .ok ⟨.jarr [.jstr "X", .jstr "b", .jstr "c"], none⟩ ∧
    ChatSession.setMetadata ⟨.jarr [.jstr "a", .jstr "b", .jstr "c"], none⟩
        (.jarr [.jnull, .jnull, .jnull, .jnull]) =
      .error "Metadata cannot exceed 3 elements" :=
  ⟨(c4_setContinuation (.jstr "a") (.jstr "b") (.jstr "c") none [.jstr "X"]).1
      (by decide),
   (c4_setContinuation (.jstr "a") (.jstr "b") (.jstr "c") none
      [.jnull, .jnull, .jnull, .jnull]).2 (by decide)⟩

/-! ### Claim C5 — chooseCandidate -/

/-- Claim C5, counterexample: with a prior one-candidate result, index `-1`
is outside `0 ≤ i < candidates.length`, but the call does NOT fail with the
index-out-of-range error: the only guard is `index >= candidates.length`, so
`candidates[-1]` yields `undefined` and reading `.rcid` of it throws a
TypeError with a different message. -/
theorem c5_counterexample :
    ChatSession.chooseCandidate sess5 (-1) =
      .error "Cannot read properties of undefined" ∧
    "Cannot read properties of undefined" ≠
      "Index -1 exceeds number of candidates" ∧
    sess5.lastOutput = some out5prior ∧
    out5prior.candidates.length = 1 := ⟨rfl, by decide, rfl, rfl⟩

/-- Claim C5, amended: with no prior result the call fails with the
no-prior-result error; with a prior result and `i ≥ candidates.length` it
fails with the index-out-of-range error; with `i < 0` it fails with a
TypeError instead (reading `.rcid` of `undefined`) — in every failing case
nothing is returned, so no thread state changes; and for `0 ≤ i <
candidates.length` it writes `candidates[i].rcid` into pointer slot 2 and
returns the last result with only the candidate-specific fields replaced
(metadata and the candidate list are those of the last result). -/
theorem c5_amended (a b c : JVal) (out : GenerationResult) (i : Int) :
    (∀ md : JVal, ChatSession.chooseCandidate ⟨md, none⟩ i =
      .error "No previous output in this chat session") ∧
    (i ≥ (out.candidates.length : Int) →
      ChatSession.chooseCandidate ⟨.jarr [a, b, c], some out⟩ i =
        .error ("Index " ++ toString i ++ " exceeds number of candidates")) ∧
    (i < 0 →
      ChatSession.chooseCandidate ⟨.jarr [a, b, c], some out⟩ i =
        .error "Cannot read properties of undefined") ∧
    (∀ hl : i.toNat < out.candidates.length, 0 ≤ i →
      ChatSession.chooseCandidate ⟨.jarr [a, b, c], some out⟩ i =
        .ok (⟨.jarr [a, b, (out.candidates.get ⟨i.toNat, hl⟩).rcid], some out⟩,
             { out with
                 text := (out.candidates.get ⟨i.toNat, hl⟩).text,
                 thoughts := (out.candidates.get ⟨i.toNat, hl⟩).thoughts,
                 images := (out.candidates.get ⟨i.toNat, hl⟩).images,
                 webImages := (out.candidates.get ⟨i.toNat, hl⟩).webImages,
                 generatedImages := (out.candidates.get ⟨i.toNat, hl⟩).generatedImages,
                 fileAttachments := (out.candidates.get ⟨i.toNat, hl⟩).fileAttachments,
                 codeBlocks := (out.candidates.get ⟨i.toNat, hl⟩).codeBlocks,
                 codeExecutionResult := (out.candidates.get ⟨i.toNat, hl⟩).codeExecutionResult,
                 factuality := (out.candidates.get ⟨i.toNat, hl⟩).factuality,
                 sources := (out.candidates.get ⟨i.toNat, hl⟩).sources,
                 rcid := (out.candidates.get ⟨i.toNat, hl⟩).rcid })) := by
  refine ⟨fun md => rfl, ?_, ?_, ?_⟩
  · intro hge
    simp only [ChatSession.chooseCandidate]
    rw [if_pos hge]
  · intro hneg
    simp only [ChatSession.chooseCandidate]
    rw [if_neg (by omega), dif_neg (by omega)]
  · intro hl h0
    simp only [ChatSession.chooseCandidate]
    rw [if_neg (by omega), dif_pos ⟨h0, hl⟩]
    rfl

/-- Claim C5, witness: on `sess5` (one prior candidate): index 0 is valid and
returns the merged result while setting pointer slot 2; index 5 hits the
range error; index `-2` hits the TypeError; a fresh session has no prior
output. -/
theorem c5_witness :
    ChatSession.chooseCandidate ⟨.jarr [.jnull, .jnull, .jnull], none⟩ 0 =
      .error "No previous output in this chat session" ∧
    ChatSession.chooseCandidate sess5 5 =
      .error "Index 5 exceeds number of candidates" ∧
    ChatSession.chooseCandidate sess5 (-2) =
      .error "Cannot read properties of undefined" ∧
    ChatSession.chooseCandidate sess5 0 =
      .ok (⟨.jarr [.jnull, .jnull, .jnum 0], some out5prior⟩, out5prior) :=
  ⟨(c5_amended .jnull .jnull .jnull out5prior 0).1 (.jarr [.jnull, .jnull, .jnull]),
   (c5_amended .jnull .jnull .jnull out5prior 5).2.1 (by decide),
   (c5_amended .jnull .jnull .jnull out5prior (-2)).2.2.1 (by decide),
   (c5_amended .jnull .jnull .jnull out5prior 0).2.2.2 (by decide) (by decide)⟩

/-! ### Claim C6 — the 3-slot pointer invariant -/

/-- A successful `setMetadata` from a 3-slot pointer keeps exactly 3 slots. -/
theorem lem_setMetadata_three (s : ChatSession) (m : JVal) (s' : ChatSession)
    (hok : ChatSession.setMetadata s m = .ok s') (h3 : isJArr3 s.metadata) :
    isJArr3 s'.metadata := by
  obtain ⟨a, b, c, hmeta⟩ := h3
  unfold ChatSession.setMetadata at hok
  cases hlv : jsLenE m with
  | error e => rw [hlv] at hok; exact absurd hok (by simp)
  | ok lv =>
    rw [hlv] at hok
    try simp only [] at hok
    by_cases hgt : jsGtInt lv 3 = true
    · rw [if_pos hgt] at hok; exact absurd hok (by simp)
    · rw [if_neg hgt] at hok
      have hb := lem_bound_le lv (by revert hgt; cases jsGtInt lv 3 <;> simp)
      obtain ⟨x, y, z, hxyz⟩ :=
        lem_assign_three m lv hlv (jsLoopBound lv) 0 a b c (by omega)
      rw [hmeta, hxyz] at hok
      try simp only [] at hok
      cases hok
      exact ⟨x, y, z, rfl⟩

/-- A successful slot setter from a 3-slot pointer keeps exactly 3 slots. -/
theorem lem_setSlot_three (s : ChatSession) (v : JVal) (s' : ChatSession)
    (i : Nat) (hi : i < 3) (p : JVal)
    (hok : jsSetIdxE s.metadata i v = .ok p) (hp : s'.metadata = p)
    (h3 : isJArr3 s.metadata) : isJArr3 s'.metadata := by
  obtain ⟨a, b, c, hmeta⟩ := h3
  obtain ⟨x, y, z, hxyz⟩ := lem_set_three a b c v i hi
  rw [hmeta, hxyz] at hok
  cases hok
  exact ⟨x, y, z, hp⟩

/-- Claim C6, counterexample: the pointer update performed by a successful
`generateContent` (`chat.metadata = output.metadata; chat.rcid =
output.rcid`) copies the decoded `body[1]` into the pointer with no
validation.  With a backend metadata of 5 elements the pointer afterwards
has 5 slots, not 3: the source of more than 3 elements was neither rejected
nor truncated — it was installed wholesale. -/
theorem c6_counterexample :
    (updateChatAfterOutput chatFresh out6wide).1.metadata =
      .jarr [.jnull, .jnull, .jstr "rc", .jnull, .jnull] ∧
    (updateChatAfterOutput chatFresh out6wide).2 = none ∧
    jarrLen (updateChatAfterOutput chatFresh out6wide).1.metadata = 5 ∧
    jarrLen chatFresh.metadata = 3 ∧
    out6wide.metadata = .jarr [.jnull, .jnull, .jnull, .jnull, .jnull] :=
  ⟨rfl, rfl, rfl, rfl, rfl⟩

/-- Claim C6, amended: the pointer holds exactly 3 slots after construction
(for every constructor option record that yields a session), and
`setMetadata`, `chooseCandidate` and the `cid`/`rid`/`rcid` setters all
preserve the exactly-3-slots invariant, with a `setMetadata` source of more
than 3 elements rejected rather than truncated.  However the pointer update
performed by a successful `generateContent` does NOT preserve the invariant:
it overwrites the pointer with the decoded `body[1]` unvalidated (see
`c6_counterexample`). -/
theorem c6_amended :
    (∀ (o : ChatOptions) (s : ChatSession),
      ChatSession.create o = .ok s → isJArr3 s.metadata) ∧
    (∀ (s : ChatSession) (m : JVal) (s' : ChatSession),
      ChatSession.setMetadata s m = .ok s' → isJArr3 s.metadata →
        isJArr3 s'.metadata) ∧
    (∀ (s : ChatSession) (i : Int) (r : ChatSession × GenerationResult),
      ChatSession.chooseCandidate s i = .ok r → isJArr3 s.metadata →
        isJArr3 r.1.metadata) ∧
    (∀ (s : ChatSession) (v : JVal) (s' : ChatSession),
      ChatSession.setCid s v = .ok s' → isJArr3 s.metadata →
        isJArr3 s'.metadata) ∧
    (∀ (s : ChatSession) (v : JVal) (s' : ChatSession),
      ChatSession.setRid s v = .ok s' → isJArr3 s.metadata →
        isJArr3 s'.metadata) ∧
    (∀ (s : ChatSession) (v : JVal) (s' : ChatSession),
      ChatSession.setRcid s v = .ok s' → isJArr3 s.metadata →
        isJArr3 s'.metadata) ∧
    (∀ (s : ChatSession) (T : List JVal), T.length > 3 →
      ChatSession.setMetadata s (.jarr T) =
        .error "Metadata cannot exceed 3 elements") := by
  have hcid : ∀ (s : ChatSession) (v : JVal) (s' : ChatSession),
      ChatSession.setCid s v = .ok s' → isJArr3 s.metadata → isJArr3 s'.metadata := by
    intro s v s' hok h3
    unfold ChatSession.setCid at hok
    cases hset : jsSetIdxE s.metadata 0 v with
    | error e => rw [hset] at hok; exact absurd hok (by simp)
    | ok p =>
      rw [hset] at hok
      try simp only [] at hok
      cases hok
      exact lem_setSlot_three s v _ 0 (by omega) p hset rfl h3
  have hrid : ∀ (s : ChatSession) (v : JVal) (s' : ChatSession),
      ChatSession.setRid s v = .ok s' → isJArr3 s.metadata → isJArr3 s'.metadata := by
    intro s v s' hok h3
    unfold ChatSession.setRid at hok
    cases hset : jsSetIdxE s.metadata 1 v with
    | error e => rw [hset] at hok; exact absurd hok (by simp)
    | ok p =>
      rw [hset] at hok
      try simp only [] at hok
      cases hok
      exact lem_setSlot_three s v _ 1 (by omega) p hset rfl h3
  have hrcid : ∀ (s : ChatSession) (v : JVal) (s' : ChatSession),
      ChatSession.setRcid s v = .ok s' → isJArr3 s.metadata → isJArr3 s'.metadata := by
    intro s v s' hok h3
    unfold ChatSession.setRcid at hok
    cases hset : jsSetIdxE s.metadata 2 v with
    | error e => rw [hset] at hok; exact absurd hok (by simp)
    | ok p =>
      rw [hset] at hok
      try simp only [] at hok
      cases hok
      exact lem_setSlot_three s v _ 2 (by omega) p hset rfl h3
  have hchoose : ∀ (s : ChatSession) (i : Int) (r : ChatSession × GenerationResult),
      ChatSession.chooseCandidate s i = .ok r → isJArr3 s.metadata →
        isJArr3 r.1.metadata := by
    intro s i r hok h3
    unfold ChatSession.chooseCandidate at hok
    cases hlast : s.lastOutput with
    | none => rw [hlast] at hok; exact absurd hok (by simp)
    | some out =>
      rw [hlast] at hok
      try simp only [] at hok
      by_cases hge : i ≥ (out.candidates.length : Int)
      · rw [if_pos hge] at hok; exact absurd hok (by simp)
      · rw [if_neg hge] at hok
        by_cases hin : 0 ≤ i ∧ i.toNat < out.candidates.length
        · rw [dif_pos hin] at hok
          try simp only [] at hok
          cases hset : jsSetIdxE s.metadata 2
              (out.candidates.get ⟨i.toNat, hin.2⟩).rcid with
          | error e => rw [hset] at hok; exact absurd hok (by simp)
          | ok p =>
            rw [hset] at hok
            try simp only [] at hok
            cases hok
            exact lem_setSlot_three s _ _ 2 (by omega) p hset rfl h3
        · rw [dif_neg hin] at hok; exact absurd hok (by simp)
  refine ⟨?_, lem_setMetadata_three, hchoose, hcid, hrid, hrcid, ?_⟩
  · intro o s hok
    unfold ChatSession.create at hok
    have h0 : isJArr3 (JVal.jarr [.jnull, .jnull, .jnull]) := ⟨_, _, _, rfl⟩
    cases h1 : (if truthy o.metadata then
        ChatSession.setMetadata ⟨.jarr [.jnull, .jnull, .jnull], none⟩ o.metadata
      else .ok ⟨.jarr [.jnull, .jnull, .jnull], none⟩) with
    | error e => rw [h1] at hok; exact absurd hok (by simp)
    | ok s1 =>
      rw [h1] at hok
      try simp only [] at hok
      have h1m : isJArr3 s1.metadata := by
        by_cases ht : truthy o.metadata = true
        · rw [if_pos ht] at h1
          exact lem_setMetadata_three _ _ _ h1 h0
        · rw [if_neg ht] at h1; cases h1; exact h0
      cases h2 : (if truthy o.cid then s1.setCid o.cid else .ok s1) with
      | error e => rw [h2] at hok; exact absurd hok (by simp)
      | ok s2 =>
        rw [h2] at hok
        try simp only [] at hok
        have h2m : isJArr3 s2.metadata := by
          by_cases ht : truthy o.cid = true
          · rw [if_pos ht] at h2; exact hcid _ _ _ h2 h1m
          · rw [if_neg ht] at h2; cases h2; exact h1m
        cases h3 : (if truthy o.rid then s2.setRid o.rid else .ok s2) with
        | error e => rw [h3] at hok; exact absurd hok (by simp)
        | ok s3 =>
          rw [h3] at hok
          try simp only [] at hok
          have h3m : isJArr3 s3.metadata := by
            by_cases ht : truthy o.rid = true
            · rw [if_pos ht] at h3; exact hrid _ _ _ h3 h2m
            · rw [if_neg ht] at h3; cases h3; exact h2m
          by_cases ht : truthy o.rcid = true
          · rw [if_pos ht] at hok; exact hrcid _ _ _ hok h3m
          · rw [if_neg ht] at hok; cases hok; exact h3m
  · intro s T hT
    have hgt : jsGtInt (.jnum (T.length : Int)) 3 = true := by
      simp [jsGtInt]; omega
    unfold ChatSession.setMetadata
    simp [jsLenE, hgt]

/-- Claim C6, witness: the default construction yields a 3-slot pointer; a
`setMetadata` and a `chooseCandidate` on concrete 3-slot sessions keep 3
slots; a 4-element source is rejected. -/
theorem c6_witness :
    isJArr3 (JVal.jarr [.jnull, .jnull, .jnull]) ∧
    isJArr3 (JVal.jarr [.jstr "X", .jstr "b", .jstr "c"]) ∧
    isJArr3 (JVal.jarr [.jnull, .jnull, .jnum 0]) ∧
    ChatSession.setMetadata chatFresh (.jarr [.jnull, .jnull, .jnull, .jnull]) =
      .error "Metadata cannot exceed 3 elements" :=
  ⟨c6_amended.1 {} ⟨.jarr [.jnull, .jnull, .jnull], none⟩ rfl,
   c6_amended.2.1 ⟨.jarr [.jstr "a", .jstr "b", .jstr "c"], none⟩
     (.jarr [.jstr "X"]) ⟨.jarr [.jstr "X", .jstr "b", .jstr "c"], none⟩ rfl
     ⟨_, _, _, rfl⟩,
   c6_amended.2.2.1 sess5 0
     (⟨.jarr [.jnull, .jnull, .jnum 0], some out5prior⟩, out5prior) rfl
     ⟨_, _, _, rfl⟩,
   c6_amended.2.2.2.2.2.2 chatFresh [.jnull, .jnull, .jnull, .jnull] (by decide)⟩

/-! ### Claim C7 — body selection and the two ParseError cases -/

/-- Claim C7, confirmed: the body scan takes the first element (in order)
whose JSON-decoded index-2 string has a truthy index-4 field (first
conjunct: the scan result is characterized by "first qualifying element";
second conjunct: a qualifying element always has a truthy index-4 field);
when no element qualifies, `parseResponse` fails with the no-response-body
ParseError; and when the located body's index-4 candidate list is the empty
array, it fails with the no-candidates ParseError rather than returning an
empty result. -/
theorem c7_bodySelection :
    (∀ (l : List JVal) (b : JVal),
      l.findSome? decodeMain = some b ↔
        ∃ i, i < l.length ∧ decodeMain (l.getD i .undefined) = some b ∧
          ∀ j, j < i → decodeMain (l.getD j .undefined) = none) ∧
    (∀ e b, decodeMain e = some b →
      ∃ f4, jsIdxE b 4 = .ok f4 ∧ truthy f4 = true) ∧
    (∀ (c : ClientState) (txt : String) (rj : JVal),
      3 ≤ (jsSplit '\n' txt).length →
      jsonParseStr ((jsSplit '\n' txt).getD 2 "") = .ok rj →
      findBody rj = .ok none →
      parseResponse c txt =
        .error "Failed to parse response: No valid response body found") ∧
    (∀ (c : ClientState) (txt : String) (rj body : JVal),
      3 ≤ (jsSplit '\n' txt).length →
      jsonParseStr ((jsSplit '\n' txt).getD 2 "") = .ok rj →
      findBody rj = .ok (some body) →
      jsIdxE body 4 = .ok (.jarr []) →
      parseResponse c txt =
        .error "Failed to parse response: No candidates found in response") := by
  refine ⟨?_, ?_, ?_, ?_⟩
  · intro l
    induction l with
    | nil =>
      intro b
      simp [List.findSome?]
    | cons x xs ih =>
      intro b
      cases hx : decodeMain x with
      | some v =>
        simp only [List.findSome?, hx]
        constructor
        · intro hv
          cases hv
          exact ⟨0, by simp, by simpa using hx, fun j hj => absurd hj (by omega)⟩
        · rintro ⟨i, hi, hdi, hall⟩
          cases i with
          | zero => simp only [List.getD] at hdi; simp at hdi; rw [hx] at hdi; exact hdi
          | succ i2 =>
            have h0 := hall 0 (by omega)
            simp only [List.getD] at h0; simp at h0
            rw [hx] at h0
            exact absurd h0 (by simp)
      | none =>
        simp only [List.findSome?, hx]
        rw [ih b]
        constructor
        · rintro ⟨i, hi, hdi, hall⟩
          refine ⟨i + 1, by simpa using hi, by simpa using hdi, ?_⟩
          intro j hj
          cases j with
          | zero => simpa using hx
          | succ j2 =>
            have := hall j2 (by omega)
            simpa using this
        · rintro ⟨i, hi, hdi, hall⟩
          cases i with
          | zero => simp only [List.getD] at hdi; simp at hdi; rw [hx] at hdi; cases hdi
          | succ i2 =>
            refine ⟨i2, by simpa using hi, by simpa using hdi, ?_⟩
            intro j hj
            have := hall (j + 1) (by omega)
            simpa using this
  · intro e b hdm
    unfold decodeMain at hdm
    simp only [bind, Except.bind] at hdm
    cases h2 : jsIdxE e 2 with
    | error e2 => rw [h2] at hdm; simp at hdm
    | ok s2 =>
      rw [h2] at hdm
      try simp only [] at hdm
      cases h3 : jsonParseJs s2 with
      | error e3 => rw [h3] at hdm; simp at hdm
      | ok mp =>
        rw [h3] at hdm
        try simp only [] at hdm
        cases h4 : jsIdxE mp 4 with
        | error e4 => rw [h4] at hdm; simp at hdm
        | ok f4 =>
          rw [h4] at hdm
          try simp only [pure, Except.pure] at hdm
          try simp only [] at hdm
          by_cases ht : truthy f4 = true
          · rw [if_pos ht] at hdm
            cases hdm
            exact ⟨f4, h4, ht⟩
          · rw [if_neg ht] at hdm; cases hdm
  · intro c txt rj h3 hparse hfind
    unfold parseResponse parseResponseCore
    simp only [bind, Except.bind]
    rw [if_neg (by omega), hparse]
    simp only []
    rw [hfind]
    rfl
  · intro c txt rj body h3 hparse hfind hb4
    unfold parseResponse parseResponseCore
    simp only [bind, Except.bind]
    rw [if_neg (by omega), hparse]
    simp only []
    rw [hfind]
    simp only []
    unfold parseBody
    simp only [bind, Except.bind]
    rw [hb4]
    rfl

/-- Claim C7, witness: the quantified conjuncts instantiated on concrete
inputs — the scan of `rj7a`'s single element (whose decoded index-4 is
absent) finds nothing and `raw7a` fails with the no-response-body error;
`rj7b`'s element qualifies (its decoded index-4 is the truthy empty array),
`body7b` has a truthy index-4 field, and `raw7b` fails with the
no-candidates error. -/
theorem c7_witness :
    (jsElems rj7b).findSome? decodeMain = some body7b ∧
    (∃ f4, jsIdxE body7b 4 = .ok f4 ∧ truthy f4 = true) ∧
    parseResponse client0 raw7a =
      .error "Failed to parse response: No valid response body found" ∧
    parseResponse client0 raw7b =
      .error "Failed to parse response: No candidates found in response" :=
  ⟨(c7_bodySelection.1 (jsElems rj7b) body7b).mpr
      ⟨0, by decide, rfl, fun j hj => absurd hj (by omega)⟩,
   c7_bodySelection.2.1 (.jarr [.jnull, .jnull, .jstr "[null,null,null,null,[]]"])
      body7b rfl,
   c7_bodySelection.2.2.1 client0 raw7a rj7a (by decide) rfl rfl,
   c7_bodySelection.2.2.2 client0 raw7b rj7b body7b (by decide) rfl rfl rfl⟩

/-! ### Claim C8 — empty-prompt guard -/

/-- Claim C8, confirmed: for every prompt that is empty or all-whitespace
after trimming, `generateContent` fails with the invalid-argument error
before any network activity — the run issues no request and returns the
client and chat states unchanged — regardless of the client's lifecycle
state (the `running` flag is not consulted before the prompt guard). -/
theorem c8_emptyPromptGuard (c : ClientState) (chat : Option ChatSession)
    (prompt : String) (transport : String → String)
    (h : jsTrim prompt = "") :
    generateContentRun c chat prompt transport =
      (.error "Prompt cannot be empty", c, chat, []) := by
  unfold generateContentRun generateContentEnvelope
  simp [h]

/-- Claim C8, witness: the all-whitespace prompt `"  "` on a non-running
client with no chat. -/
theorem c8_witness :
    generateContentRun client0 none "  " (fun _ => "") =
      (.error "Prompt cannot be empty", client0, none, []) ∧
    jsTrim "  " = "" :=
  ⟨c8_emptyPromptGuard client0 none "  " (fun _ => "") rfl, rfl⟩

/-! ### Claim C9 — not-initialized guard -/

/-- Claim C9, counterexample: the prompt `" "` is non-empty, yet invoking
`generateContent` on a non-running client with it does NOT fail with the
not-initialized error: the empty-after-trim guard fires first, so the
failure is the invalid-argument error. -/
theorem c9_counterexample :
    generateContentRun client0 none " " (fun _ => "") =
      (.error "Prompt cannot be empty", client0, none, []) ∧
    (" " : String) ≠ "" ∧
    client0.running = false ∧
    "Prompt cannot be empty" ≠ "Client not initialized. Call init() first." :=
  ⟨rfl, by decide, rfl, by decide⟩

/-- Claim C9, amended: for every prompt that is non-empty AFTER TRIMMING,
invoking `generateContent` while the client is not running (uninitialized,
or closed — `close` clears the running flag) fails with the not-initialized
error, issues no request, and leaves the client and chat states unchanged. -/
theorem c9_amended (c : ClientState) (chat : Option ChatSession)
    (prompt : String) (transport : String → String)
    (hrun : c.running = false) (hp : jsTrim prompt ≠ "") :
    generateContentRun c chat prompt transport =
      (.error "Client not initialized. Call init() first.", c, chat, []) ∧
    (GeminiClient.close c).running = false := by
  have hne : prompt ≠ "" := fun he => hp (by rw [he]; rfl)
  constructor
  · unfold generateContentRun generateContentEnvelope
    simp [hne, hp, hrun]
  · rfl

/-- Claim C9, witness: prompt `"hello"` on the non-running `client0`. -/
theorem c9_witness :
    generateContentRun client0 none "hello" (fun _ => "") =
      (.error "Client not initialized. Call init() first.", client0, none, []) ∧
    (GeminiClient.close client0).running = false :=
  c9_amended client0 none "hello" (fun _ => "") rfl (by decide)

/-! ### Claim C10 — decoding is a pure function of the input text -/

/-- Claim C10, confirmed: `parseResponse` depends only on its input text —
for any two client states (differing cookies, tokens, lifecycle flags), the
decode of equal raw response text is identical, and in particular two
invocations on equal input yield equal GenerationResults.  (The only member
the decode touches is `detectMimeType`, which reads none of the mutable
client state.) -/
theorem c10_decoderPurity (c1 c2 : ClientState) (txt : String) :
    parseResponse c1 txt = parseResponse c2 txt := rfl

end GeminiWeb
